import Mathlib

/-!
Verification of the established-connection core of `gilescope/smoldot`
(`src/lib/src/libp2p/connection/established.rs` and its test module).

The file embeds, as executable Lean definitions:
* the configuration and event types of `established.rs` (which is part of the
  sources), and
* a message-level model of the established connection state machine.  The
  bodies of `single_stream.rs` and `substream.rs` are not among the source
  files (only their declarations, re-exports and tests are), so the machine is
  modelled from the specification, §4.3–§4.4: per-substream tagged states,
  FIFO delivery of per-substream frames, a pending-event queue drained one
  event per `read_write` call, and inline deadlines folded by `read_write`.

Theorems at the end of the file settle the documented properties of this
core against those definitions.
-/

/-- Application payloads are opaque byte sequences (spec §1); bytes are
modelled as naturals. -/
abbrev Bytes := List Nat

/-- Positional lookup in a protocol list (`Config::request_protocols` /
`Config::notifications_protocols` are indexed by `protocol_index`). -/
def listAt {α : Type} : List α → Nat → Option α
  | [], _ => none
  | x :: _, 0 => some x
  | _ :: xs, n + 1 => listAt xs n

/-- Embedded from `established.rs` (`ConfigRequestResponseIn`): an inbound
request is either completely empty or a length-prefixed payload with a
maximum size. -/
inductive ConfigRequestResponseIn : Type
  | empty : ConfigRequestResponseIn
  | payload (max_size : Nat) : ConfigRequestResponseIn
deriving DecidableEq

/-- Embedded from `established.rs` (`ConfigRequestResponseIn::max_size`):
returns the maximum allowed size of a request, `0` for `Empty`. -/
def ConfigRequestResponseIn.max_size : ConfigRequestResponseIn → Nat
  | .empty => 0
  | .payload m => m

/-- Embedded from `established.rs` (`ConfigRequestResponse`). -/
structure ConfigRequestResponse : Type where
  name : String
  inbound_config : ConfigRequestResponseIn
  max_response_size : Nat
  inbound_allowed : Bool
deriving DecidableEq

/-- Embedded from `established.rs` (`ConfigNotifications`). -/
structure ConfigNotifications : Type where
  name : String
  max_handshake_size : Nat
  max_notification_size : Nat
deriving DecidableEq

/-- Embedded from `established.rs` (`Config`); `TNow` and `Duration` are
modelled as naturals, the randomness seed as a byte list. -/
structure Config : Type where
  max_inbound_substreams : Nat
  request_protocols : List ConfigRequestResponse
  notifications_protocols : List ConfigNotifications
  ping_protocol : String
  first_out_ping : Nat
  ping_interval : Nat
  ping_timeout : Nat
  randomness_seed : List Nat

/-- Modelled from the spec: the error variants of a failed outbound request
(`substream::RequestError`, whose defining file is not among the sources;
spec §4.3 "Request-out": `Timeout`, `ProtocolNotAvailable`, `SubstreamClosed`,
`SubstreamReset`, `ResponseTooLarge`, `InvalidResponseSize`). -/
inductive RequestError : Type
  | timeout
  | protocolNotAvailable
  | substreamClosed
  | substreamReset
  | responseTooLarge
  | invalidResponseSize
deriving DecidableEq

/-- Modelled from the spec: failure kinds of an outbound notifications
substream (`substream::NotificationsOutErr` is not among the sources; spec
§4.3 "Notifications-out": refusal, timeout, peer close and peer reset). -/
inductive NotificationsOutErr : Type
  | refusedHandshake
  | timeout
  | substreamClosed
  | substreamReset
deriving DecidableEq

/-- Modelled from the spec: closing kinds of an inbound notifications
substream (`substream::NotificationsInClosedErr` is not among the sources;
spec §4.3 "Notifications-in": peer RST or oversize frame). -/
inductive NotificationsInClosedErr : Type
  | substreamReset
  | notificationTooLarge
deriving DecidableEq

/-- Modelled from the spec: error of `respond_in_request` when the request
substream no longer exists (`substream::RespondInRequestError` is not among
the sources; spec §4.3 "Request-in"). -/
inductive RespondInRequestError : Type
  | substreamClosed
deriving DecidableEq

instance instExceptDecEq {ε α : Type} [DecidableEq ε] [DecidableEq α] :
    DecidableEq (Except ε α) := fun x y =>
  match x, y with
  | .ok a, .ok b =>
    if h : a = b then .isTrue (by rw [h]) else .isFalse (fun hh => h (Except.ok.inj hh))
  | .error a, .error b =>
    if h : a = b then .isTrue (by rw [h]) else .isFalse (fun hh => h (Except.error.inj hh))
  | .ok _, .error _ => .isFalse (fun hh => Except.noConfusion hh)
  | .error _, .ok _ => .isFalse (fun hh => Except.noConfusion hh)

/-- Embedded from `established.rs` (`Event<TRqUd, TNotifUd>`); the two opaque
user-data type parameters are modelled as naturals, substream identifiers of
the model as naturals. -/
inductive Event : Type
  | newOutboundSubstreamsForbidden
  | requestIn (id : Nat) (protocol_index : Nat) (request : Bytes)
  | response (id : Nat) (response : Except RequestError Bytes) (user_data : Nat)
  | notificationsInOpen (id : Nat) (protocol_index : Nat) (handshake : Bytes)
  | notificationsInOpenCancel (id : Nat)
  | notificationIn (id : Nat) (notification : Bytes)
  | notificationsInClose (id : Nat) (outcome : Except NotificationsInClosedErr Unit)
  | notificationsOutResult (id : Nat) (result : Except (NotificationsOutErr × Nat) Bytes)
  | notificationsOutCloseDemanded (id : Nat)
  | notificationsOutReset (id : Nat) (user_data : Nat)
  | pingOutSuccess
  | pingOutFailed
deriving DecidableEq

namespace yamux

/-- Modelled from the spec: yamux substream identifiers are the 4-byte stream
ids of the multiplexer frame header (spec §4.2); the `yamux::SubstreamId`
type itself is not among the source files, only its use in `established.rs`. -/
abbrev SubstreamId : Type := Fin 4294967296

/-- Modelled from the spec: the least yamux substream identifier. -/
def SubstreamId.min_value : SubstreamId := ⟨0, by omega⟩

/-- Modelled from the spec: the greatest yamux substream identifier. -/
def SubstreamId.max_value : SubstreamId := ⟨4294967295, by omega⟩

end yamux

/-- Embedded from `established.rs` (`SubstreamIdInner`): a tagged union of a
single-stream (yamux) identifier and a multi-stream (host `u32`)
identifier. -/
inductive SubstreamIdInner : Type
  | singleStream (id : yamux.SubstreamId)
  | multiStream (id : Fin 4294967296)
deriving DecidableEq

/-- Embedded from `established.rs`: the order that Rust `derive(PartialOrd,
Ord)` places on `SubstreamIdInner` — variant position first (`SingleStream`
before `MultiStream`), payload order within a variant. -/
def SubstreamIdInner.le : SubstreamIdInner → SubstreamIdInner → Prop
  | .singleStream a, .singleStream b => a.val ≤ b.val
  | .singleStream _, .multiStream _ => True
  | .multiStream _, .singleStream _ => False
  | .multiStream a, .multiStream b => a.val ≤ b.val

instance : ∀ x y : SubstreamIdInner, Decidable (SubstreamIdInner.le x y) := by
  intro x y
  cases x <;> cases y <;> simp only [SubstreamIdInner.le] <;> infer_instance

/-- Embedded from `established.rs` (`SubstreamId`): the public wrapper. -/
structure SubstreamId : Type where
  inner : SubstreamIdInner
deriving DecidableEq

/-- Order on `SubstreamId`, inherited from `SubstreamIdInner`. -/
def SubstreamId.le (x y : SubstreamId) : Prop := x.inner.le y.inner

instance : ∀ x y : SubstreamId, Decidable (SubstreamId.le x y) := by
  intro x y
  unfold SubstreamId.le
  infer_instance

/-- Strict order on `SubstreamId`. -/
def SubstreamId.lt (x y : SubstreamId) : Prop := x.le y ∧ ¬ y.le x

/-- Embedded from `established.rs` (`SubstreamId::min_value`): the
single-stream variant holding the least yamux identifier. -/
def SubstreamId.min_value : SubstreamId := ⟨.singleStream yamux.SubstreamId.min_value⟩

/-- Embedded from `established.rs` (`SubstreamId::max_value`): the
multi-stream variant holding `u32::max_value()`. -/
def SubstreamId.max_value : SubstreamId := ⟨.multiStream ⟨4294967295, by omega⟩⟩

/-- C10: `ConfigRequestResponseIn::max_size` returns `0` on the `Empty`
variant and exactly the contained value on the `Payload` variant; it is a
total function of the variant alone. -/
theorem claim_c10_config_max_size :
    ConfigRequestResponseIn.max_size .empty = 0 ∧
      (∀ n : Nat, ConfigRequestResponseIn.max_size (.payload n) = n) ∧
      (∀ c : ConfigRequestResponseIn, c.max_size =
        match c with
        | .empty => 0
        | .payload m => m) :=
  ⟨rfl, fun _ => rfl, fun c => by cases c <;> rfl⟩

/-- C9: `SubstreamId` is totally ordered (total, antisymmetric, transitive),
`min_value` is below and `max_value` above every identifier, and every
single-stream identifier is strictly below every multi-stream identifier. -/
theorem claim_c9_substream_id_order :
    (∀ x y : SubstreamId, x.le y ∨ y.le x) ∧
      (∀ x y : SubstreamId, x.le y → y.le x → x = y) ∧
      (∀ x y z : SubstreamId, x.le y → y.le z → x.le z) ∧
      (∀ x : SubstreamId, SubstreamId.min_value.le x) ∧
      (∀ x : SubstreamId, x.le SubstreamId.max_value) ∧
      (∀ (a b : Fin 4294967296),
        SubstreamId.lt ⟨.singleStream a⟩ ⟨.multiStream b⟩) := by
  refine ⟨?_, ?_, ?_, ?_, ?_, ?_⟩
  · intro ⟨x⟩ ⟨y⟩
    cases x <;> cases y <;> simp [SubstreamId.le, SubstreamIdInner.le] <;> omega
  · intro ⟨x⟩ ⟨y⟩ h₁ h₂
    cases x <;> cases y <;>
      simp_all [SubstreamId.le, SubstreamIdInner.le] <;>
      exact Fin.ext (by omega)
  · intro ⟨x⟩ ⟨y⟩ ⟨z⟩ h₁ h₂
    cases x <;> cases y <;> cases z <;>
      simp_all [SubstreamId.le, SubstreamIdInner.le] <;> omega
  · intro ⟨x⟩
    cases x <;>
      simp [SubstreamId.le, SubstreamIdInner.le, SubstreamId.min_value,
        yamux.SubstreamId.min_value]
  · intro x
    obtain ⟨v⟩ := x
    cases v with
    | singleStream a =>
      simp [SubstreamId.le, SubstreamIdInner.le, SubstreamId.max_value]
    | multiStream a =>
      simp [SubstreamId.le, SubstreamIdInner.le, SubstreamId.max_value]
      omega
  · intro a b
    exact ⟨trivial, fun h => h⟩

/-- Witness for C9: the order facts instantiated at concrete identifiers,
with every hypothesis discharged concretely. -/
theorem claim_c9_substream_id_order_witness :
    SubstreamId.min_value.le SubstreamId.max_value ∧
      SubstreamId.min_value = SubstreamId.min_value :=
  ⟨claim_c9_substream_id_order.2.2.2.1 SubstreamId.max_value,
    claim_c9_substream_id_order.2.1 SubstreamId.min_value SubstreamId.min_value
      (by decide) (by decide)⟩

/-- Modelled from the spec: the per-substream wire units exchanged between the
two peers once the secure channel exists (the multiplexer and framing layers,
`single_stream.rs` / `substream.rs` / yamux, are not among the source files).
`openRequest` bundles the multistream-select proposal of a request-response
protocol with the length-prefixed request and the writing-half FIN (spec
§4.3 "Request-out"); `openNotif` bundles the proposal of a notifications
protocol with the length-prefixed handshake; `data` is one length-prefixed
application frame (response, remote handshake or notification); `fin` and
`rst` are the yamux half-close and reset; `nack` is the multistream-select
rejection answer. -/
inductive Frame : Type
  | openRequest (protocol_index : Nat) (request : Bytes)
  | openNotif (protocol_index : Nat) (handshake : Bytes)
  | data (payload : Bytes)
  | fin
  | rst
  | nack
deriving DecidableEq

/-- Modelled from the spec: input units of `read_write` — a frame addressed
to a substream, or the connection-level yamux GO_AWAY (spec §4.2). -/
inductive Msg : Type
  | sub (id : Nat) (frame : Frame)
  | goAway
deriving DecidableEq

/-- Modelled from the spec: the tagged per-substream states (spec §3
"Substream states"), restricted to the phases observable at the message
level.  States that need them carry the negotiated protocol's limits, the
inline deadline (spec §9 "Timers") and the caller-attached user data. -/
inductive SubState : Type
  | requestOut (max_response_size deadline user_data : Nat)
  | requestInWait (protocol_index : Nat)
  | notifOutOpening (max_handshake_size deadline user_data : Nat)
  | notifOutOpen (user_data : Nat)
  | notifInWait (protocol_index : Nat)
  | notifInOpen (max_notification_size user_data : Nat) (closedByUs : Bool)
deriving DecidableEq

/-- Modelled from the spec: the established connection value (spec §3
"Connection"): configured protocols, the `new_outbound_forbidden` flag, the
monotone substream-id allocator (dialer odd / listener even, spec §4.2), the
substream map, the queue of pending events not yet consumed and the queue of
outbound frames not yet written. -/
structure Conn : Type where
  max_inbound_substreams : Nat
  request_protocols : List ConfigRequestResponse
  notifications_protocols : List ConfigNotifications
  newOutboundForbidden : Bool
  nextOutboundId : Nat
  substreams : List (Nat × SubState)
  pendingEvents : List Event
  outQueue : List Msg

/-- Modelled from the spec: construction of a connection from a `Config`
(spec §3 "Lifecycle"); the dialer allocates odd substream ids, the listener
even ones. -/
def Conn.fromConfig (isDialer : Bool) (cfg : Config) : Conn where
  max_inbound_substreams := cfg.max_inbound_substreams
  request_protocols := cfg.request_protocols
  notifications_protocols := cfg.notifications_protocols
  newOutboundForbidden := false
  nextOutboundId := if isDialer then 1 else 2
  substreams := []
  pendingEvents := []
  outQueue := []

/-- Lookup of a substream state by id. -/
def lookupSub : List (Nat × SubState) → Nat → Option SubState
  | [], _ => none
  | (k, s) :: rest, id => if k = id then some s else lookupSub rest id

/-- Removal of a substream by id (ids are unique in every reachable state, so
removing every occurrence coincides with removing the one entry). -/
def removeSub : List (Nat × SubState) → Nat → List (Nat × SubState)
  | [], _ => []
  | (k, s) :: rest, id =>
    if k = id then removeSub rest id else (k, s) :: removeSub rest id

/-- Replacement of a substream state by id (ids are unique in every reachable
state). -/
def updateSub : List (Nat × SubState) → Nat → SubState → List (Nat × SubState)
  | [], _, _ => []
  | (k, s) :: rest, id, s' =>
    if k = id then (k, s') :: updateSub rest id s'
    else (k, s) :: updateSub rest id s'

/-- Appends frames to the outbound queue. -/
def queueMsgs (c : Conn) (ms : List Msg) : Conn :=
  { c with outQueue := c.outQueue ++ ms }

/-- Appends an event to the pending-event queue (spec §3: events not yet
consumed by the caller are queued). -/
def pushEvent (c : Conn) (e : Event) : Conn :=
  { c with pendingEvents := c.pendingEvents ++ [e] }

/-- Retires a substream (spec §3: retired ids are never reused). -/
def dropSub (c : Conn) (id : Nat) : Conn :=
  { c with substreams := removeSub c.substreams id }

/-- Replaces a substream's state. -/
def setSub (c : Conn) (id : Nat) (s : SubState) : Conn :=
  { c with substreams := updateSub c.substreams id s }

/-- Registers a new substream. -/
def addSub (c : Conn) (id : Nat) (s : SubState) : Conn :=
  { c with substreams := c.substreams ++ [(id, s)] }

/-- Modelled from the spec: the connection-fatal conditions of `read_write`
(spec §7): at the message level, the observable one is a SYN for an id that
already exists (spec §4.2 "Receiving SYN for an existing id ... is a protocol
violation → connection closed").  `single_stream::Error` itself is not among
the source files. -/
inductive Error : Type
  | synOnExistingSubstream
deriving DecidableEq

/-- Modelled from the spec: handling of an inbound request-substream opening
(spec §4.3 "Negotiation phase" and "Request-in"): the protocol must be
configured with `inbound_allowed` (otherwise the `na` answer), admission
control bounds the number of substreams (spec §4.2, answered with RST), the
request must respect `max_size()` (past it the substream is reset), and on
success `RequestIn` is emitted and the substream awaits
`respond_in_request`. -/
def processOpenRequest (c : Conn) (id pidx : Nat) (request : Bytes) :
    Except Error Conn :=
  if (lookupSub c.substreams id).isSome then .error .synOnExistingSubstream
  else if c.max_inbound_substreams ≤ c.substreams.length then
    .ok (queueMsgs c [.sub id .rst])
  else
    match listAt c.request_protocols pidx with
    | none => .ok (queueMsgs c [.sub id .nack])
    | some proto =>
      if proto.inbound_allowed = false then .ok (queueMsgs c [.sub id .nack])
      else if request.length ≤ proto.inbound_config.max_size then
        .ok (pushEvent (addSub c id (.requestInWait pidx)) (.requestIn id pidx request))
      else .ok (queueMsgs c [.sub id .rst])

/-- Modelled from the spec: handling of an inbound notifications-substream
opening (spec §4.3 "Notifications-in"): on success `NotificationsInOpen` is
emitted and the substream waits for the caller's accept/reject. -/
def processOpenNotif (c : Conn) (id pidx : Nat) (handshake : Bytes) :
    Except Error Conn :=
  if (lookupSub c.substreams id).isSome then .error .synOnExistingSubstream
  else if c.max_inbound_substreams ≤ c.substreams.length then
    .ok (queueMsgs c [.sub id .rst])
  else
    match listAt c.notifications_protocols pidx with
    | none => .ok (queueMsgs c [.sub id .nack])
    | some proto =>
      if handshake.length ≤ proto.max_handshake_size then
        .ok (pushEvent (addSub c id (.notifInWait pidx))
          (.notificationsInOpen id pidx handshake))
      else .ok (queueMsgs c [.sub id .rst])

/-- Modelled from the spec: handling of one length-prefixed application frame
(spec §4.3): a response for a waiting request (checked against
`max_response_size`, spec "Request-out"), the remote handshake of an opening
outbound notifications substream (checked against `max_handshake_size`,
"Notifications-out"), or a notification on an accepted inbound substream
(checked against `max_notification_size`, "Notifications-in"; past a maximum
the substream is reset, spec §5).  Frames for retired substreams are
ignored. -/
def processData (c : Conn) (id : Nat) (payload : Bytes) : Conn :=
  match lookupSub c.substreams id with
  | some (.requestOut maxResp _ u) =>
    if payload.length ≤ maxResp then
      pushEvent (dropSub c id) (.response id (.ok payload) u)
    else
      queueMsgs (pushEvent (dropSub c id) (.response id (.error .responseTooLarge) u))
        [.sub id .rst]
  | some (.notifOutOpening maxHs _ u) =>
    if payload.length ≤ maxHs then
      pushEvent (setSub c id (.notifOutOpen u)) (.notificationsOutResult id (.ok payload))
    else
      queueMsgs (pushEvent (dropSub c id)
          (.notificationsOutResult id (.error (.substreamReset, u))))
        [.sub id .rst]
  | some (.notifInOpen maxNotif _ _) =>
    if payload.length ≤ maxNotif then pushEvent c (.notificationIn id payload)
    else
      queueMsgs (pushEvent (dropSub c id)
          (.notificationsInClose id (.error .notificationTooLarge)))
        [.sub id .rst]
  | some (.requestInWait _) => c
  | some (.notifInWait _) => c
  | some (.notifOutOpen _) => c
  | none => c

/-- Modelled from the spec: handling of a peer FIN (spec §4.3): before a
response it is `SubstreamClosed`; on an open outbound notifications substream
it demands closing (`NotificationsOutCloseDemanded`); on an accepted inbound
notifications substream it closes gracefully; while an inbound opening awaits
the caller's answer it cancels the opening. -/
def processFin (c : Conn) (id : Nat) : Conn :=
  match lookupSub c.substreams id with
  | some (.requestOut _ _ u) =>
    pushEvent (dropSub c id) (.response id (.error .substreamClosed) u)
  | some (.notifOutOpening _ _ u) =>
    pushEvent (dropSub c id) (.notificationsOutResult id (.error (.substreamClosed, u)))
  | some (.notifOutOpen _) => pushEvent c (.notificationsOutCloseDemanded id)
  | some (.notifInOpen _ _ _) =>
    pushEvent (dropSub c id) (.notificationsInClose id (.ok ()))
  | some (.notifInWait _) => pushEvent (dropSub c id) (.notificationsInOpenCancel id)
  | some (.requestInWait _) => c
  | none => c

/-- Modelled from the spec: handling of a peer RST (spec §4.3): a waiting
request fails with `SubstreamReset`; an open outbound notifications substream
is instantly closed returning the user data; inbound substreams are closed or
cancelled. -/
def processRst (c : Conn) (id : Nat) : Conn :=
  match lookupSub c.substreams id with
  | some (.requestOut _ _ u) =>
    pushEvent (dropSub c id) (.response id (.error .substreamReset) u)
  | some (.notifOutOpening _ _ u) =>
    pushEvent (dropSub c id) (.notificationsOutResult id (.error (.substreamReset, u)))
  | some (.notifOutOpen u) => pushEvent (dropSub c id) (.notificationsOutReset id u)
  | some (.notifInOpen _ _ _) =>
    pushEvent (dropSub c id) (.notificationsInClose id (.error .substreamReset))
  | some (.notifInWait _) => pushEvent (dropSub c id) (.notificationsInOpenCancel id)
  | some (.requestInWait _) => dropSub c id
  | none => c

/-- Modelled from the spec: handling of the multistream-select `na` answer
(spec §4.3: negotiation `na` yields `ProtocolNotAvailable` for a request and
a refused handshake for a notifications opening). -/
def processNack (c : Conn) (id : Nat) : Conn :=
  match lookupSub c.substreams id with
  | some (.requestOut _ _ u) =>
    pushEvent (dropSub c id) (.response id (.error .protocolNotAvailable) u)
  | some (.notifOutOpening _ _ u) =>
    pushEvent (dropSub c id) (.notificationsOutResult id (.error (.refusedHandshake, u)))
  | _ => c

/-- Modelled from the spec: dispatch of one input unit.  GO_AWAY sets the
`new_outbound_forbidden` flag and emits `NewOutboundSubstreamsForbidden`
(spec §4.2). -/
def processMsg (c : Conn) (m : Msg) : Except Error Conn :=
  match m with
  | .goAway =>
    .ok (pushEvent { c with newOutboundForbidden := true } .newOutboundSubstreamsForbidden)
  | .sub id f =>
    match f with
    | .openRequest pidx req => processOpenRequest c id pidx req
    | .openNotif pidx hs => processOpenNotif c id pidx hs
    | .data p => .ok (processData c id p)
    | .fin => .ok (processFin c id)
    | .rst => .ok (processRst c id)
    | .nack => .ok (processNack c id)

/-- Modelled from the spec: `read_write` consumes as many input units as
possible (spec §4.4). -/
def processMsgs : Conn → List Msg → Except Error Conn
  | c, [] => .ok c
  | c, m :: ms =>
    match processMsg c m with
    | .error e => .error e
    | .ok c' => processMsgs c' ms

/-- Modelled from the spec: whether a substream's inline deadline has fired
at time `now` (spec §9 "Timers": only waiting requests and opening outbound
notifications substreams hold deadlines at this level). -/
def timerFires (now : Nat) : SubState → Bool
  | .requestOut _ d _ => decide (d < now)
  | .notifOutOpening _ d _ => decide (d < now)
  | _ => false

/-- Modelled from the spec: the terminal event of a fired deadline (spec
§4.3: a request times out with `RequestError::Timeout`; an opening
notifications substream fails with `NotificationsOutErr::Timeout`, returning
the user data). -/
def timerEvent (id : Nat) : SubState → List Event
  | .requestOut _ _ u => [.response id (.error .timeout) u]
  | .notifOutOpening _ _ u => [.notificationsOutResult id (.error (.timeout, u))]
  | _ => []

/-- Folds the deadlines of every substream against `now`, retiring the fired
ones and collecting their terminal events. -/
def runTimers (now : Nat) : List (Nat × SubState) → List (Nat × SubState) × List Event
  | [] => ([], [])
  | (id, s) :: rest =>
    let p := runTimers now rest
    if timerFires now s then (p.1, timerEvent id s ++ p.2)
    else ((id, s) :: p.1, p.2)

/-- Modelled from the spec: `read_write` advances all timers against `now`
(spec §4.4). -/
def processTimers (now : Nat) (c : Conn) : Conn :=
  { c with
    substreams := (runTimers now c.substreams).1,
    pendingEvents := c.pendingEvents ++ (runTimers now c.substreams).2 }

/-- Modelled from the spec: at most ONE event is returned per call; the rest
stay queued (spec §4.4). -/
def popEvent (c : Conn) : Conn × Option Event :=
  match c.pendingEvents with
  | [] => (c, none)
  | e :: rest => ({ c with pendingEvents := rest }, some e)

/-- Modelled from the spec: the central `read_write` operation of the
single-stream flavor (spec §4.4), at the message level: it consumes all input
units, advances every timer against `now`, and returns the new connection
value together with at most one event; a connection-fatal protocol violation
is surfaced as `Err` instead. -/
def read_write (now : Nat) (c : Conn) (input : List Msg) :
    Except Error (Conn × Option Event) :=
  match processMsgs c input with
  | .error e => .error e
  | .ok c₁ => .ok (popEvent (processTimers now c₁))

/-- Modelled from the spec: failure modes of starting an outbound substream.
`RequestTooLarge` embeds `AddRequestError::RequestTooLarge` of
`established.rs`; `newOutboundForbidden` is the failure the spec requires
once the flag is set (§3 invariants: "once set, `add_request` and
`open_notifications_substream` fail"); `unknownProtocol` models a protocol
index outside the configured list. -/
inductive OutboundOpenError : Type
  | requestTooLarge
  | newOutboundForbidden
  | unknownProtocol
deriving DecidableEq

/-- Modelled from the spec: `add_request` (spec §4.4, §4.3 "Request-out"):
fails once `new_outbound_forbidden` is set, refuses a request above the
protocol's maximum size, and otherwise allocates a fresh outbound substream
id, queues the request opening and stores the deadline and the caller's user
data. -/
def add_request (c : Conn) (pidx : Nat) (request : Bytes) (deadline user_data : Nat) :
    Except OutboundOpenError (Conn × Nat) :=
  if c.newOutboundForbidden then .error .newOutboundForbidden
  else
    match listAt c.request_protocols pidx with
    | none => .error .unknownProtocol
    | some proto =>
      if request.length ≤ proto.inbound_config.max_size then
        .ok (queueMsgs
          { c with
            nextOutboundId := c.nextOutboundId + 2,
            substreams := c.substreams ++
              [(c.nextOutboundId, .requestOut proto.max_response_size deadline user_data)] }
          [.sub c.nextOutboundId (.openRequest pidx request)], c.nextOutboundId)
      else .error .requestTooLarge

/-- Modelled from the spec: `open_notifications_substream` (spec §4.4, §4.3
"Notifications-out"): fails once `new_outbound_forbidden` is set, otherwise
allocates a fresh outbound substream id, queues the opening with the local
handshake and stores the deadline and the caller's user data. -/
def open_notifications_substream (c : Conn) (pidx : Nat) (handshake : Bytes)
    (deadline user_data : Nat) : Except OutboundOpenError (Conn × Nat) :=
  if c.newOutboundForbidden then .error .newOutboundForbidden
  else
    match listAt c.notifications_protocols pidx with
    | none => .error .unknownProtocol
    | some proto =>
      .ok (queueMsgs
        { c with
          nextOutboundId := c.nextOutboundId + 2,
          substreams := c.substreams ++
            [(c.nextOutboundId,
              .notifOutOpening proto.max_handshake_size deadline user_data)] }
        [.sub c.nextOutboundId (.openNotif pidx handshake)], c.nextOutboundId)

/-- Modelled from the spec: `respond_in_request` (spec §4.3 "Request-in"):
on `Ok` the length-prefixed response is sent followed by FIN; on `Err` the
substream is reset; if the substream no longer exists the call fails. -/
def respond_in_request (c : Conn) (id : Nat) (answer : Except Unit Bytes) :
    Except RespondInRequestError Conn :=
  match lookupSub c.substreams id with
  | some (.requestInWait _) =>
    match answer with
    | .ok r => .ok (queueMsgs (dropSub c id) [.sub id (.data r), .sub id .fin])
    | .error _ => .ok (queueMsgs (dropSub c id) [.sub id .rst])
  | _ => .error .substreamClosed

/-- Modelled from the spec: `accept_in_notifications_substream` (spec §4.3
"Notifications-in"): sends the local handshake back and enters the accepted
state, remembering the protocol's notification size limit and the caller's
user data. -/
def accept_in_notifications_substream (c : Conn) (id : Nat) (handshakeBack : Bytes)
    (user_data : Nat) : Conn :=
  match lookupSub c.substreams id with
  | some (.notifInWait pidx) =>
    match listAt c.notifications_protocols pidx with
    | some proto =>
      queueMsgs (setSub c id (.notifInOpen proto.max_notification_size user_data false))
        [.sub id (.data handshakeBack)]
    | none => c
  | _ => c

/-- Modelled from the spec: `reject_in_notifications_substream` (spec §4.3
"Notifications-in"): answers the opening with the multistream-select
refusal. -/
def reject_in_notifications_substream (c : Conn) (id : Nat) : Conn :=
  match lookupSub c.substreams id with
  | some (.notifInWait _) => queueMsgs (dropSub c id) [.sub id .nack]
  | _ => c

/-- Modelled from the spec: `write_notification_unbounded` (spec §4.3
"Notifications-out"): queues one length-prefixed notification on an open
outbound notifications substream; on any other substream it is a no-op. -/
def write_notification_unbounded (c : Conn) (id : Nat) (notif : Bytes) : Conn :=
  match lookupSub c.substreams id with
  | some (.notifOutOpen _) => queueMsgs c [.sub id (.data notif)]
  | _ => c

/-- Modelled from the spec: `close_notifications_substream` (spec §4.3): on
an open outbound notifications substream it sends FIN and retires the
substream; on an accepted inbound notifications substream it sends FIN once
and remembers having done so; anywhere else it is a no-op. -/
def close_notifications_substream (c : Conn) (id : Nat) : Conn :=
  match lookupSub c.substreams id with
  | some (.notifOutOpen _) => queueMsgs (dropSub c id) [.sub id .fin]
  | some (.notifInOpen maxNotif u closed) =>
    if closed then c
    else queueMsgs (setSub c id (.notifInOpen maxNotif u true)) [.sub id .fin]
  | _ => c

/-- The in-memory two-peer harness of the test module (`TwoEstablished` in
`tests.rs`): two connection values joined by a bidirectional pipe, plus the
injected time. -/
structure TwoConns : Type where
  alice : Conn
  bob : Conn
  aliceToBob : List Msg
  bobToAlice : List Msg
  now : Nat

/-- Mirrors `perform_handshake` of `tests.rs` at the point where both peers
are established: fresh connections joined by empty buffers at time zero. -/
def initialPair (cfgA cfgB : Config) : TwoConns where
  alice := Conn.fromConfig true cfgA
  bob := Conn.fromConfig false cfgB
  aliceToBob := []
  bobToAlice := []
  now := 0

/-- One round of `run_until_event` of `tests.rs`: Alice's `read_write` over
the pipe from Bob (her produced frames are moved onto the pipe towards Bob),
then, if Alice produced no event, Bob's `read_write` symmetrically.  Returns
the updated harness and the event of whichever side produced one first. -/
def exchange (t : TwoConns) : Except Error (TwoConns × Option (Sum Event Event)) :=
  match read_write t.now t.alice t.bobToAlice with
  | .error e => .error e
  | .ok (a', evA) =>
    let t₁ : TwoConns :=
      { t with
        alice := { a' with outQueue := [] },
        bobToAlice := [],
        aliceToBob := t.aliceToBob ++ a'.outQueue }
    match evA with
    | some e => .ok (t₁, some (.inl e))
    | none =>
      match read_write t₁.now t₁.bob t₁.aliceToBob with
      | .error e => .error e
      | .ok (b', evB) =>
        let t₂ : TwoConns :=
          { t₁ with
            bob := { b' with outQueue := [] },
            aliceToBob := [],
            bobToAlice := t₁.bobToAlice ++ b'.outQueue }
        .ok (t₂, evB.map .inr)

/-- Repeated parameterless `read_write` calls collecting the events returned,
one per call (spec §4.4: the caller may call again without supplying new
bytes). -/
def drain (now : Nat) : Nat → Conn → List Event
  | 0, _ => []
  | fuel + 1, c =>
    match read_write now c [] with
    | .ok (c', some e) => e :: drain now fuel c'
    | _ => []

/-- One `read_write` call over the given input followed by parameterless
calls, collecting every event returned. -/
def observe (now fuel : Nat) (c : Conn) (input : List Msg) : List Event :=
  match read_write now c input with
  | .ok (c', some e) => e :: drain now fuel c'
  | _ => []

/-- Writes a sequence of notifications in order through
`write_notification_unbounded` (the loop of `outbound_substream_works` in
`tests.rs`). -/
def write_all (c : Conn) (id : Nat) (ns : List Bytes) : Conn :=
  ns.foldl (fun acc n => write_notification_unbounded acc id n) c

/-- The configuration of the request-response tests of `tests.rs`
(`successful_request`, `refused_request`, `request_timeout`), with the two
size limits kept as parameters. -/
def testRequestConfig (maxSize maxResp : Nat) : Config where
  max_inbound_substreams := 64
  request_protocols :=
    [{ name := "test-request-protocol",
       inbound_config := .payload maxSize,
       max_response_size := maxResp,
       inbound_allowed := true }]
  notifications_protocols := []
  ping_protocol := "ping"
  first_out_ping := 60
  ping_interval := 20
  ping_timeout := 20
  randomness_seed := []

/-- The configuration of the notifications tests of `tests.rs`
(`outbound_substream_works` and friends), with the two size limits kept as
parameters. -/
def testNotifConfig (maxHs maxNotif : Nat) : Config where
  max_inbound_substreams := 64
  request_protocols := []
  notifications_protocols :=
    [{ name := "test-notif-protocol",
       max_handshake_size := maxHs,
       max_notification_size := maxNotif }]
  ping_protocol := "ping"
  first_out_ping := 60
  ping_interval := 20
  ping_timeout := 20
  randomness_seed := []

/-- The `successful_request` scenario of `tests.rs`, over arbitrary sizes,
request, response and user data: Alice adds the request; Bob must observe
`RequestIn` with exactly the sent payload and answer `Ok response`; the run
then continues until Alice's next event.  Returns that event together with
Alice's final substream map and pending events (`none` on any deviation). -/
def c1_run (maxSize maxResp : Nat) (request response : Bytes) (deadline u : Nat) :
    Option (Event × List (Nat × SubState) × List Event) :=
  let cfg := testRequestConfig maxSize maxResp
  let t0 := initialPair cfg cfg
  match add_request t0.alice 0 request deadline u with
  | .error _ => none
  | .ok (a1, _) =>
    match exchange { t0 with alice := a1 } with
    | .ok (t2, some (.inr (.requestIn rid pidx req))) =>
      if pidx = 0 then
        if req = request then
          match respond_in_request t2.bob rid (.ok response) with
          | .error _ => none
          | .ok b2 =>
            match exchange { t2 with bob := b2 } with
            | .ok (t4, none) =>
              match exchange t4 with
              | .ok (t5, some (.inl ev)) =>
                some (ev, t5.alice.substreams, t5.alice.pendingEvents)
              | _ => none
            | _ => none
        else none
      else none
    | _ => none

/-- The `refused_request` scenario of `tests.rs`: as `c1_run`, but Bob
answers `Err(())`. -/
def c6_run (maxSize maxResp : Nat) (request : Bytes) (deadline u : Nat) :
    Option (Event × List (Nat × SubState) × List Event) :=
  let cfg := testRequestConfig maxSize maxResp
  let t0 := initialPair cfg cfg
  match add_request t0.alice 0 request deadline u with
  | .error _ => none
  | .ok (a1, _) =>
    match exchange { t0 with alice := a1 } with
    | .ok (t2, some (.inr (.requestIn rid pidx req))) =>
      if pidx = 0 then
        if req = request then
          match respond_in_request t2.bob rid (.error ()) with
          | .error _ => none
          | .ok b2 =>
            match exchange { t2 with bob := b2 } with
            | .ok (t4, none) =>
              match exchange t4 with
              | .ok (t5, some (.inl ev)) =>
                some (ev, t5.alice.substreams, t5.alice.pendingEvents)
              | _ => none
            | _ => none
        else none
      else none
    | _ => none

/-- The `outbound_substream_refuse` scenario of `tests.rs`: Alice opens a
notifications substream with user data `u`; Bob must observe
`NotificationsInOpen` with exactly the sent handshake and reject it; the run
continues until Alice's next event. -/
def c7_run (maxHs maxNotif : Nat) (handshake : Bytes) (deadline u : Nat) :
    Option (Event × List (Nat × SubState) × List Event) :=
  let cfg := testNotifConfig maxHs maxNotif
  let t0 := initialPair cfg cfg
  match open_notifications_substream t0.alice 0 handshake deadline u with
  | .error _ => none
  | .ok (a1, _) =>
    match exchange { t0 with alice := a1 } with
    | .ok (t2, some (.inr (.notificationsInOpen rid pidx hs))) =>
      if pidx = 0 then
        if hs = handshake then
          let b2 := reject_in_notifications_substream t2.bob rid
          match exchange { t2 with bob := b2 } with
          | .ok (t4, none) =>
            match exchange t4 with
            | .ok (t5, some (.inl ev)) =>
              some (ev, t5.alice.substreams, t5.alice.pendingEvents)
            | _ => none
          | _ => none
        else none
      else none
    | _ => none

/-- The `outbound_substream_works` scenario of `tests.rs`: Alice opens a
notifications substream; Bob observes `NotificationsInOpen` and accepts with
his own handshake; Alice observes `NotificationsOutResult Ok` and writes the
whole sequence `ns`; the frames are carried to Bob, whose observed events are
collected. -/
def c2_run (maxHs maxNotif : Nat) (handshake handshakeBack : Bytes) (ns : List Bytes)
    (deadline u ub : Nat) : Option (List Event) :=
  let cfg := testNotifConfig maxHs maxNotif
  let t0 := initialPair cfg cfg
  match open_notifications_substream t0.alice 0 handshake deadline u with
  | .error _ => none
  | .ok (a1, _) =>
    match exchange { t0 with alice := a1 } with
    | .ok (t2, some (.inr (.notificationsInOpen rid pidx hs))) =>
      if pidx = 0 then
        if hs = handshake then
          let b2 := accept_in_notifications_substream t2.bob rid handshakeBack ub
          match exchange { t2 with bob := b2 } with
          | .ok (t3, none) =>
            match exchange t3 with
            | .ok (t4, some (.inl (.notificationsOutResult oid result))) =>
              if oid = 1 then
                if result = .ok handshakeBack then
                  let a2 := write_all t4.alice 1 ns
                  some (observe t4.now ns.length t4.bob a2.outQueue)
                else none
              else none
            | _ => none
          | _ => none
        else none
      else none
    | _ => none

theorem lookupSub_removeSub (l : List (Nat × SubState)) (id : Nat) :
    lookupSub (removeSub l id) id = none := by
  induction l with
  | nil => rfl
  | cons p rest ih =>
    obtain ⟨k, s⟩ := p
    by_cases hk : k = id
    · simp [removeSub, hk, ih]
    · simp [removeSub, lookupSub, hk, ih]

theorem lookupSub_updateSub (l : List (Nat × SubState)) (id : Nat) (s' : SubState) :
    lookupSub (updateSub l id s') id = (lookupSub l id).map (fun _ => s') := by
  induction l with
  | nil => rfl
  | cons p rest ih =>
    obtain ⟨k, v⟩ := p
    by_cases hk : k = id
    · simp [updateSub, lookupSub, hk]
    · simp [updateSub, lookupSub, hk, ih]

/-- C8: closing a notifications substream is idempotent — a second
`close_notifications_substream` on the same id leaves the connection value
(and hence, the machine being a function of its state, all subsequent
observable behaviour) exactly as after the first call. -/
theorem claim_c8_close_idempotent (c : Conn) (id : Nat) :
    close_notifications_substream (close_notifications_substream c id) id =
      close_notifications_substream c id := by
  cases h : lookupSub c.substreams id with
  | none => simp [close_notifications_substream, h]
  | some s =>
    cases s with
    | requestOut m d u => simp [close_notifications_substream, h]
    | requestInWait p => simp [close_notifications_substream, h]
    | notifOutOpening m d u => simp [close_notifications_substream, h]
    | notifOutOpen u =>
      simp [close_notifications_substream, h, queueMsgs, dropSub, lookupSub_removeSub]
    | notifInWait p => simp [close_notifications_substream, h]
    | notifInOpen m u closed =>
      cases closed with
      | true => simp [close_notifications_substream, h]
      | false =>
        simp [close_notifications_substream, h, queueMsgs, setSub, lookupSub_updateSub]

theorem runTimers_no_fire (now : Nat) (l : List (Nat × SubState))
    (h : ∀ p ∈ l, timerFires now p.2 = false) :
    runTimers now l = (l, []) := by
  induction l with
  | nil => rfl
  | cons p rest ih =>
    obtain ⟨k, s⟩ := p
    have hs : timerFires now s = false := h (k, s) (by simp)
    have hr : ∀ q ∈ rest, timerFires now q.2 = false := fun q hq => h q (by simp [hq])
    simp [runTimers, ih hr, hs]

theorem read_write_pop (now : Nat) (c : Conn) (e : Event) (rest : List Event)
    (h : c.pendingEvents = e :: rest) :
    read_write now c [] =
      .ok ({ c with
             substreams := (runTimers now c.substreams).1,
             pendingEvents := rest ++ (runTimers now c.substreams).2 }, some e) := by
  simp [read_write, processMsgs, processTimers, popEvent, h]

/-- C4: `read_write` returns at most one event per call (its result type
carries an `Option Event`); with pending events queued, a call with no new
input returns the first pending event, retains the remaining ones in order,
and the next such call returns the next pending event. -/
theorem claim_c4_one_event_per_call (now : Nat) (c : Conn) (e : Event)
    (rest : List Event) (h : c.pendingEvents = e :: rest) :
    ∃ c', read_write now c [] = .ok (c', some e) ∧
      (∃ extra, c'.pendingEvents = rest ++ extra) ∧
      ∀ e₂ rest₂, c'.pendingEvents = e₂ :: rest₂ →
        ∃ c'', read_write now c' [] = .ok (c'', some e₂) := by
  refine ⟨_, read_write_pop now c e rest h, ⟨_, rfl⟩, ?_⟩
  intro e₂ rest₂ h₂
  exact ⟨_, read_write_pop now _ e₂ rest₂ h₂⟩

/-- A connection with two queued events and no live substream, used to
instantiate the C4 theorem. -/
def pendingDemoConn : Conn where
  max_inbound_substreams := 64
  request_protocols := []
  notifications_protocols := []
  newOutboundForbidden := false
  nextOutboundId := 1
  substreams := []
  pendingEvents := [.pingOutSuccess, .pingOutFailed]
  outQueue := []

/-- Witness for C4 at a concrete connection with two pending events. -/
theorem claim_c4_one_event_per_call_witness :
    ∃ c', read_write 0 pendingDemoConn [] = .ok (c', some .pingOutSuccess) ∧
      (∃ extra, c'.pendingEvents = [Event.pingOutFailed] ++ extra) ∧
      ∀ e₂ rest₂, c'.pendingEvents = e₂ :: rest₂ →
        ∃ c'', read_write 0 c' [] = .ok (c'', some e₂) :=
  claim_c4_one_event_per_call 0 pendingDemoConn .pingOutSuccess [.pingOutFailed] rfl

/-- C5: a waiting outbound request whose deadline lies before `now` is
resolved by `read_write` into the event `Response{Err(Timeout)}` carrying the
request's id and user data; the call succeeds (the connection stays alive,
only the request substream is retired). -/
theorem claim_c5_request_timeout (now d m id u : Nat) (c : Conn)
    (hpend : c.pendingEvents = []) (hsub : c.substreams = [(id, .requestOut m d u)])
    (hD : d < now) :
    read_write now c [] =
      .ok ({ c with substreams := [], pendingEvents := [] },
        some (.response id (.error .timeout) u)) := by
  simp [read_write, processMsgs, processTimers, popEvent, runTimers, hsub, hpend,
    timerFires, timerEvent, hD]

/-- A connection with a single outbound request whose deadline is 5, used to
instantiate the C5 theorem at time 6. -/
def timeoutDemoConn : Conn where
  max_inbound_substreams := 64
  request_protocols := []
  notifications_protocols := []
  newOutboundForbidden := false
  nextOutboundId := 3
  substreams := [(1, .requestOut 10 5 7)]
  pendingEvents := []
  outQueue := []

/-- Witness for C5: a request with deadline 5 polled at time 6 times out. -/
theorem claim_c5_request_timeout_witness :
    read_write 6 timeoutDemoConn [] =
      .ok ({ timeoutDemoConn with substreams := [], pendingEvents := [] },
        some (.response 1 (.error .timeout) 7)) :=
  claim_c5_request_timeout 6 5 10 1 7 timeoutDemoConn rfl rfl (by decide)

theorem processOpenRequest_flag (c : Conn) (id pidx : Nat) (r : Bytes) (c' : Conn)
    (h : processOpenRequest c id pidx r = .ok c') :
    c'.newOutboundForbidden = c.newOutboundForbidden := by
  unfold processOpenRequest at h
  repeat' split at h
  all_goals simp_all [queueMsgs, pushEvent, addSub]
  all_goals subst h; rfl

theorem processOpenNotif_flag (c : Conn) (id pidx : Nat) (hs : Bytes) (c' : Conn)
    (h : processOpenNotif c id pidx hs = .ok c') :
    c'.newOutboundForbidden = c.newOutboundForbidden := by
  unfold processOpenNotif at h
  repeat' split at h
  all_goals simp_all [queueMsgs, pushEvent, addSub]
  all_goals subst h; rfl

theorem processData_flag (c : Conn) (id : Nat) (p : Bytes) :
    (processData c id p).newOutboundForbidden = c.newOutboundForbidden := by
  unfold processData
  repeat' split
  all_goals rfl

theorem processFin_flag (c : Conn) (id : Nat) :
    (processFin c id).newOutboundForbidden = c.newOutboundForbidden := by
  unfold processFin
  repeat' split
  all_goals rfl

theorem processRst_flag (c : Conn) (id : Nat) :
    (processRst c id).newOutboundForbidden = c.newOutboundForbidden := by
  unfold processRst
  repeat' split
  all_goals rfl

theorem processNack_flag (c : Conn) (id : Nat) :
    (processNack c id).newOutboundForbidden = c.newOutboundForbidden := by
  unfold processNack
  repeat' split
  all_goals rfl

theorem processMsg_flag (c : Conn) (m : Msg) (c' : Conn) (h : processMsg c m = .ok c')
    (hc : c.newOutboundForbidden = true) : c'.newOutboundForbidden = true := by
  cases m with
  | goAway =>
    unfold processMsg at h
    simp only [Except.ok.injEq] at h
    subst h
    rfl
  | sub id f =>
    cases f with
    | openRequest pidx req =>
      exact (processOpenRequest_flag c id pidx req c' h).trans hc
    | openNotif pidx hs =>
      exact (processOpenNotif_flag c id pidx hs c' h).trans hc
    | data p =>
      unfold processMsg at h
      simp only [Except.ok.injEq] at h
      subst h
      exact (processData_flag c id p).trans hc
    | fin =>
      unfold processMsg at h
      simp only [Except.ok.injEq] at h
      subst h
      exact (processFin_flag c id).trans hc
    | rst =>
      unfold processMsg at h
      simp only [Except.ok.injEq] at h
      subst h
      exact (processRst_flag c id).trans hc
    | nack =>
      unfold processMsg at h
      simp only [Except.ok.injEq] at h
      subst h
      exact (processNack_flag c id).trans hc

theorem processMsgs_flag (input : List Msg) :
    ∀ c c' : Conn, processMsgs c input = .ok c' →
      c.newOutboundForbidden = true → c'.newOutboundForbidden = true := by
  induction input with
  | nil =>
    intro c c' h hc
    unfold processMsgs at h
    simp only [Except.ok.injEq] at h
    subst h
    exact hc
  | cons m ms ih =>
    intro c c' h hc
    unfold processMsgs at h
    cases hm : processMsg c m with
    | error e => rw [hm] at h; exact absurd h (by simp)
    | ok c₁ =>
      rw [hm] at h
      exact ih c₁ c' h (processMsg_flag c m c₁ hm hc)

theorem processTimers_flag (now : Nat) (c : Conn) :
    (processTimers now c).newOutboundForbidden = c.newOutboundForbidden := rfl

theorem popEvent_flag (c : Conn) :
    (popEvent c).1.newOutboundForbidden = c.newOutboundForbidden := by
  unfold popEvent
  split
  all_goals rfl

theorem read_write_flag (now : Nat) (c : Conn) (input : List Msg) (c' : Conn)
    (ev : Option Event) (h : read_write now c input = .ok (c', ev))
    (hc : c.newOutboundForbidden = true) : c'.newOutboundForbidden = true := by
  unfold read_write at h
  cases hm : processMsgs c input with
  | error e => rw [hm] at h; exact absurd h (by simp)
  | ok c₁ =>
    rw [hm] at h
    simp only [Except.ok.injEq] at h
    have h₁ : c₁.newOutboundForbidden = true := processMsgs_flag input c c₁ hm hc
    have hp : (popEvent (processTimers now c₁)).1 = c' := congrArg Prod.fst h
    rw [← hp, popEvent_flag, processTimers_flag]
    exact h₁

/-- C3: once `new_outbound_forbidden` is set, `add_request` and
`open_notifications_substream` fail on every subsequent call; no
`read_write` call and no caller operation ever clears the flag; and the
operations on existing substreams (`write_notification_unbounded`,
`close_notifications_substream`) behave exactly as they would with the flag
cleared — existing substreams continue to operate normally. -/
theorem claim_c3_new_outbound_forbidden (c : Conn) (h : c.newOutboundForbidden = true) :
    (∀ pidx request deadline u,
      add_request c pidx request deadline u = .error .newOutboundForbidden) ∧
    (∀ pidx hs deadline u,
      open_notifications_substream c pidx hs deadline u = .error .newOutboundForbidden) ∧
    (∀ now input c' ev, read_write now c input = .ok (c', ev) →
      c'.newOutboundForbidden = true) ∧
    (∀ id answer c', respond_in_request c id answer = .ok c' →
      c'.newOutboundForbidden = true) ∧
    (∀ id notif, (write_notification_unbounded c id notif).newOutboundForbidden = true) ∧
    (∀ id, (close_notifications_substream c id).newOutboundForbidden = true) ∧
    (∀ id hs u, (accept_in_notifications_substream c id hs u).newOutboundForbidden = true) ∧
    (∀ id, (reject_in_notifications_substream c id).newOutboundForbidden = true) ∧
    (∀ id notif, write_notification_unbounded c id notif =
      { write_notification_unbounded { c with newOutboundForbidden := false } id notif with
        newOutboundForbidden := true }) ∧
    (∀ id, close_notifications_substream c id =
      { close_notifications_substream { c with newOutboundForbidden := false } id with
        newOutboundForbidden := true }) := by
  refine ⟨?_, ?_, ?_, ?_, ?_, ?_, ?_, ?_, ?_, ?_⟩
  · intro pidx request deadline u
    simp [add_request, h]
  · intro pidx hs deadline u
    simp [open_notifications_substream, h]
  · intro now input c' ev hr
    exact read_write_flag now c input c' ev hr h
  · intro id answer c' hr
    unfold respond_in_request at hr
    repeat' split at hr
    all_goals simp_all [queueMsgs, dropSub]
    all_goals (subst hr; rfl)
  · intro id notif
    unfold write_notification_unbounded
    split
    all_goals simp [queueMsgs, h]
  · intro id
    unfold close_notifications_substream
    repeat' split
    all_goals simp [queueMsgs, dropSub, setSub, h]
  · intro id hs u
    unfold accept_in_notifications_substream
    repeat' split
    all_goals simp [queueMsgs, setSub, h]
  · intro id
    unfold reject_in_notifications_substream
    split
    all_goals simp [queueMsgs, dropSub, h]
  · intro id notif
    obtain ⟨mi, rp, np, fl, ni, ss, pe, oq⟩ := c
    simp only at h
    subst h
    unfold write_notification_unbounded
    split
    all_goals simp_all [queueMsgs]
  · intro id
    obtain ⟨mi, rp, np, fl, ni, ss, pe, oq⟩ := c
    simp only at h
    subst h
    unfold close_notifications_substream
    repeat' split
    all_goals simp_all [queueMsgs, dropSub, setSub]

/-- A connection on which GO_AWAY has been received (the flag is set), used
to instantiate the C3 theorem. -/
def forbiddenDemoConn : Conn where
  max_inbound_substreams := 64
  request_protocols :=
    [{ name := "test-request-protocol",
       inbound_config := .payload 128,
       max_response_size := 1024,
       inbound_allowed := true }]
  notifications_protocols :=
    [{ name := "test-notif-protocol",
       max_handshake_size := 1024,
       max_notification_size := 1024 }]
  newOutboundForbidden := true
  nextOutboundId := 1
  substreams := []
  pendingEvents := []
  outQueue := []

/-- Witness for C3: on a concrete connection with the flag set, both
substream-opening operations fail. -/
theorem claim_c3_new_outbound_forbidden_witness :
    add_request forbiddenDemoConn 0 [1] 5 7 = .error .newOutboundForbidden ∧
      open_notifications_substream forbiddenDemoConn 0 [1] 5 7 =
        .error .newOutboundForbidden :=
  ⟨(claim_c3_new_outbound_forbidden forbiddenDemoConn rfl).1 0 [1] 5 7,
    (claim_c3_new_outbound_forbidden forbiddenDemoConn rfl).2.1 0 [1] 5 7⟩

/-- C1: for every request of size within the protocol's `max_size` and every
response within `max_response_size`, the `successful_request` scenario goes
through: `add_request` returns substream id 1, Bob observes `RequestIn` with
exactly the request payload, and after he answers `Ok response` Alice
observes exactly one `Event::Response` whose id is the one `add_request`
returned, whose user data is the value passed to `add_request` and whose
payload is the response unchanged; Alice ends with no live substream and no
further pending event. -/
theorem claim_c1_successful_request (maxSize maxResp deadline u : Nat) (P R : Bytes)
    (hP : P.length ≤ maxSize) (hR : R.length ≤ maxResp) :
    Except.map (fun pr => pr.2)
      (add_request (initialPair (testRequestConfig maxSize maxResp)
        (testRequestConfig maxSize maxResp)).alice 0 P deadline u) = .ok 1 ∧
    c1_run maxSize maxResp P R deadline u = some (.response 1 (.ok R) u, [], []) := by
  constructor
  · simp [add_request, initialPair, Conn.fromConfig, testRequestConfig, listAt,
      ConfigRequestResponseIn.max_size, queueMsgs, hP, Except.map]
  · simp [c1_run, initialPair, Conn.fromConfig, testRequestConfig, add_request, listAt,
      ConfigRequestResponseIn.max_size, queueMsgs, pushEvent, addSub, dropSub, setSub,
      exchange, read_write, processMsgs, processMsg, processOpenRequest, processData,
      processFin, processRst, processNack, processTimers, runTimers, timerFires,
      timerEvent, popEvent, lookupSub, respond_in_request, removeSub, updateSub,
      Nat.not_lt_zero, hP, hR]

/-- Witness for C1 at the concrete payloads of the `successful_request`
test. -/
theorem claim_c1_successful_request_witness :
    (([1, 2, 3] : Bytes).length ≤ 128 ∧ ([4, 5] : Bytes).length ≤ 1024) ∧
      (Except.map (fun pr => pr.2)
        (add_request (initialPair (testRequestConfig 128 1024)
          (testRequestConfig 128 1024)).alice 0 [1, 2, 3] 5 7) = .ok 1 ∧
      c1_run 128 1024 [1, 2, 3] [4, 5] 5 7 = some (.response 1 (.ok [4, 5]) 7, [], [])) :=
  ⟨⟨by decide, by decide⟩,
    claim_c1_successful_request 128 1024 5 7 [1, 2, 3] [4, 5] (by decide) (by decide)⟩

/-- C6: in the `refused_request` scenario — Bob answers
`respond_in_request(id, Err(()))` — Alice observes `Event::Response` whose
payload is an error equal to `SubstreamClosed` or `SubstreamReset` (in this
deterministic schedule the reset arrives first), never another variant and
never `Ok`. -/
theorem claim_c6_refused_request (maxSize maxResp deadline u : Nat) (P : Bytes)
    (hP : P.length ≤ maxSize) :
    ∃ e : RequestError,
      c6_run maxSize maxResp P deadline u = some (.response 1 (.error e) u, [], []) ∧
        (e = .substreamClosed ∨ e = .substreamReset) := by
  refine ⟨.substreamReset, ?_, .inr rfl⟩
  simp [c6_run, initialPair, Conn.fromConfig, testRequestConfig, add_request, listAt,
    ConfigRequestResponseIn.max_size, queueMsgs, pushEvent, addSub, dropSub, setSub,
    exchange, read_write, processMsgs, processMsg, processOpenRequest, processData,
    processFin, processRst, processNack, processTimers, runTimers, timerFires,
    timerEvent, popEvent, lookupSub, respond_in_request, removeSub, updateSub,
    Nat.not_lt_zero, hP]

/-- Witness for C6 at the concrete payload of the `refused_request` test. -/
theorem claim_c6_refused_request_witness :
    (([1, 2, 3] : Bytes).length ≤ 128) ∧
      ∃ e : RequestError,
        c6_run 128 1024 [1, 2, 3] 5 7 = some (.response 1 (.error e) 7, [], []) ∧
          (e = .substreamClosed ∨ e = .substreamReset) :=
  ⟨by decide, claim_c6_refused_request 128 1024 5 7 [1, 2, 3] (by decide)⟩

/-- C7: in the `outbound_substream_refuse` scenario — Bob rejects the
inbound notifications substream — Alice observes
`NotificationsOutResult{Err((RefusedHandshake, u))}`: the terminal failure
event returns the user data `u` attached at `open_notifications_substream`. -/
theorem claim_c7_refused_notifications (maxHs maxNotif deadline u : Nat) (H : Bytes)
    (hH : H.length ≤ maxHs) :
    c7_run maxHs maxNotif H deadline u =
      some (.notificationsOutResult 1 (.error (.refusedHandshake, u)), [], []) := by
  simp [c7_run, initialPair, Conn.fromConfig, testNotifConfig,
    open_notifications_substream, listAt, queueMsgs, pushEvent, addSub, dropSub, setSub,
    exchange, read_write, processMsgs, processMsg, processOpenNotif, processData,
    processFin, processRst, processNack, processTimers, runTimers, timerFires,
    timerEvent, popEvent, lookupSub, reject_in_notifications_substream, removeSub,
    updateSub, Nat.not_lt_zero, hH]

/-- Witness for C7 at the concrete handshake of the
`outbound_substream_refuse` test. -/
theorem claim_c7_refused_notifications_witness :
    (([9, 9] : Bytes).length ≤ 1024) ∧
      c7_run 1024 1024 [9, 9] 5 7 =
        some (.notificationsOutResult 1 (.error (.refusedHandshake, 7)), [], []) :=
  ⟨by decide, claim_c7_refused_notifications 1024 1024 5 7 [9, 9] (by decide)⟩


theorem write_all_queue (ns : List Bytes) : ∀ (c : Conn) (id : Nat),
    (∃ u, lookupSub c.substreams id = some (.notifOutOpen u)) →
    write_all c id ns =
      { c with outQueue := c.outQueue ++ ns.map (fun n => Msg.sub id (.data n)) } := by
  induction ns with
  | nil =>
    intro c id _
    simp [write_all]
  | cons n rest ih =>
    intro c id h
    obtain ⟨u, hu⟩ := h
    have hw : write_notification_unbounded c id n = queueMsgs c [.sub id (.data n)] := by
      simp [write_notification_unbounded, hu]
    have hstep : write_all c id (n :: rest) =
        write_all (queueMsgs c [.sub id (.data n)]) id rest := by
      unfold write_all
      simp only [List.foldl_cons, hw]
    rw [hstep, ih (queueMsgs c [.sub id (.data n)]) id ⟨u, by simpa [queueMsgs] using hu⟩]
    simp [queueMsgs, List.append_assoc]

theorem processMsgs_notifications (ns : List Bytes) :
    ∀ (c : Conn) (id maxNotif u : Nat) (cl : Bool),
    c.substreams = [(id, .notifInOpen maxNotif u cl)] →
    (∀ n ∈ ns, n.length ≤ maxNotif) →
    processMsgs c (ns.map (fun n => Msg.sub id (.data n))) =
      .ok { c with pendingEvents := c.pendingEvents ++ ns.map (Event.notificationIn id) } := by
  induction ns with
  | nil =>
    intro c id m u cl hs hsz
    simp [processMsgs]
  | cons n rest ih =>
    intro c id m u cl hs hsz
    have hn : n.length ≤ m := hsz n (by simp)
    have hrest : ∀ x ∈ rest, x.length ≤ m := fun x hx => hsz x (by simp [hx])
    have hpm : processMsg c (.sub id (.data n)) = .ok (pushEvent c (.notificationIn id n)) := by
      simp [processMsg, processData, hs, lookupSub, hn]
    have hstep : processMsgs c ((n :: rest).map (fun x => Msg.sub id (.data x))) =
        processMsgs (pushEvent c (.notificationIn id n))
          (rest.map (fun x => Msg.sub id (.data x))) := by
      simp only [List.map_cons, processMsgs, hpm]
    rw [hstep, ih (pushEvent c (.notificationIn id n)) id m u cl (by simp [pushEvent, hs]) hrest]
    simp [pushEvent, List.append_assoc]

theorem read_write_no_input (now : Nat) (c : Conn)
    (h : ∀ p ∈ c.substreams, timerFires now p.2 = false) :
    read_write now c [] = .ok (popEvent c) := by
  have h1 : runTimers now c.substreams = (c.substreams, []) := runTimers_no_fire now _ h
  simp [read_write, processMsgs, processTimers, h1]

theorem drain_pending (evts : List Event) : ∀ (fuel : Nat) (c : Conn) (now : Nat),
    evts.length ≤ fuel → c.pendingEvents = evts →
    (∀ p ∈ c.substreams, timerFires now p.2 = false) →
    drain now fuel c = evts := by
  induction evts with
  | nil =>
    intro fuel c now hf hp ht
    cases fuel with
    | zero => rfl
    | succ f =>
      unfold drain
      rw [read_write_no_input now c ht]
      simp [popEvent, hp]
  | cons e rest ih =>
    intro fuel c now hf hp ht
    cases fuel with
    | zero => simp at hf
    | succ f =>
      have h1 : runTimers now c.substreams = (c.substreams, []) := runTimers_no_fire now _ ht
      unfold drain
      rw [read_write_pop now c e rest hp]
      simp only [h1, List.append_nil]
      have htail := ih f
        { c with substreams := c.substreams, pendingEvents := rest } now
        (by simpa using hf) rfl (by simpa using ht)
      simp only [htail]

theorem observe_notifications (now : Nat) (c : Conn) (id maxNotif u : Nat) (cl : Bool)
    (ns : List Bytes)
    (hs : c.substreams = [(id, .notifInOpen maxNotif u cl)])
    (hp : c.pendingEvents = [])
    (hsz : ∀ n ∈ ns, n.length ≤ maxNotif) :
    observe now ns.length c (ns.map (fun n => Msg.sub id (.data n))) =
      ns.map (Event.notificationIn id) := by
  have hfl : ∀ p ∈ c.substreams, timerFires now p.2 = false := by
    intro p hpm
    rw [hs] at hpm
    simp only [List.mem_singleton] at hpm
    subst hpm
    rfl
  have hmsgs := processMsgs_notifications ns c id maxNotif u cl hs hsz
  have h1 : runTimers now c.substreams = (c.substreams, []) := runTimers_no_fire now _ hfl
  cases ns with
  | nil =>
    simp only [List.map_nil, List.length_nil]
    unfold observe
    rw [show (([] : List Msg) = ([] : List Msg)) from rfl]
    rw [read_write_no_input now c hfl]
    simp [popEvent, hp]
  | cons n rest =>
    unfold observe read_write
    rw [hmsgs]
    simp only [processTimers, h1, List.append_nil, hp, List.nil_append, List.map_cons,
      popEvent, List.length_cons]
    rw [drain_pending (rest.map (Event.notificationIn id)) _ _ now (by simp) rfl
      (by simpa using hfl)]

/-- C2: in the `outbound_substream_works` scenario, every sequence of
notifications each within `max_notification_size`, written in order through
`write_notification_unbounded` on the open outbound notifications substream,
is observed by the peer as `NotificationIn` events whose payload sequence
equals the written one — each payload unchanged and in the same order. -/
theorem claim_c2_notifications (maxHs maxNotif deadline u ub : Nat) (H HB : Bytes)
    (ns : List Bytes) (hH : H.length ≤ maxHs) (hHB : HB.length ≤ maxHs)
    (hns : ∀ n ∈ ns, n.length ≤ maxNotif) :
    c2_run maxHs maxNotif H HB ns deadline u ub =
      some (ns.map (Event.notificationIn 1)) := by
  simp [c2_run, initialPair, Conn.fromConfig, testNotifConfig,
    open_notifications_substream, listAt, queueMsgs, pushEvent, addSub, dropSub, setSub,
    exchange, read_write, processMsgs, processMsg, processOpenNotif, processData,
    processFin, processRst, processNack, processTimers, runTimers, timerFires,
    timerEvent, popEvent, lookupSub, accept_in_notifications_substream, removeSub,
    updateSub, Nat.not_lt_zero, hH, hHB]
  rw [write_all_queue ns _ 1 ⟨u, by simp [lookupSub]⟩]
  simp only [List.nil_append]
  exact observe_notifications 0 _ 1 maxNotif ub false ns rfl rfl hns


/-- Witness for C2 at the three concrete notifications of the
`outbound_substream_works` test. -/
theorem claim_c2_notifications_witness :
    (([1] : Bytes).length ≤ 1024 ∧ ([2] : Bytes).length ≤ 1024 ∧
      (∀ n ∈ ([[10], [11], [12]] : List Bytes), n.length ≤ 1024)) ∧
      c2_run 1024 1024 [1] [2] [[10], [11], [12]] 5 7 8 =
        some ([[10], [11], [12]].map (Event.notificationIn 1)) :=
  ⟨⟨by decide, by decide, by decide⟩,
    claim_c2_notifications 1024 1024 5 7 8 [1] [2] [[10], [11], [12]]
      (by decide) (by decide) (by decide)⟩
